import Mathlib

/-!
Verification of the response-mapping and resource-dispatch layer of a small
REST client (`pipedrive/base.py`).

The embedding is a shallow one:

* JSON-decoded Python values are modelled by `JValue`; Python dictionaries
  (as decoded from JSON objects) are association lists `List (String × JValue)`.
* Operations that may raise a Python exception (`TypeError`,
  `AttributeError`, `KeyError`, `IndexError`) return `Except PyErr _`.
* Mutation of caller-supplied dictionaries is modelled by explicit state
  passing: a function that may mutate an argument also returns the caller's
  view of that argument after the call (suffix `_st`).
-/

set_option autoImplicit false

namespace Pipedrive

/-- Python exceptions raised by the code paths under study. -/
inductive PyErr where
  | typeError
  | attributeError
  | keyError
  | indexError
  deriving DecidableEq, Repr

/-- A JSON-decoded Python value: `None`, `bool`, `int`, `str`, `list`, `dict`. -/
inductive JValue where
  | null
  | bool (b : Bool)
  | int (n : Int)
  | str (s : String)
  | arr (xs : List JValue)
  | obj (kvs : List (String × JValue))

/-- Python truthiness of a JSON-decoded value (`bool(v)`). -/
def truthy : JValue → Bool
  | .null => false
  | .bool b => b
  | .int n => n != 0
  | .str s => s ≠ ""
  | .arr xs => !xs.isEmpty
  | .obj kvs => !kvs.isEmpty

/-- Dictionary lookup (`d[k]` when the key is present, else `none`).
Association lists modelling Python dicts have distinct keys, so first-match
lookup agrees with dict lookup. -/
def dlookup {α : Type} : List (String × α) → String → Option α
  | [], _ => none
  | (k, v) :: rest, key => if k = key then some v else dlookup rest key

/-- Dictionary assignment `d[k] = v`: overwrites the existing binding in
place if the key is present (keeping its position), otherwise appends the
new binding at the end.  Dicts modelled as association lists have distinct
keys, so overwriting the first occurrence is dict overwrite. -/
def dictSet {α : Type} : List (String × α) → String → α → List (String × α)
  | [], k, v => [(k, v)]
  | (k0, v0) :: rest, k, v =>
      if k0 = k then (k, v) :: rest else (k0, v0) :: dictSet rest k v

/-- `d.get(k, default)` on a dict modelled as an association list. -/
def dgetD (kvs : List (String × JValue)) (k : String) (d : JValue) : JValue :=
  (dlookup kvs k).getD d

/-- Does `needle` occur at the head of `hay`? (helper for `in` on strings) -/
def charsAtHead : List Char → List Char → Bool
  | [], _ => true
  | _ :: _, [] => false
  | a :: as, b :: bs => a == b && charsAtHead as bs

/-- Does `needle` occur as a contiguous run inside `hay`? -/
def charsWithin (needle : List Char) : List Char → Bool
  | [] => needle.isEmpty
  | b :: bs => charsAtHead needle (b :: bs) || charsWithin needle bs

/-- Python `needle in hay` for strings (substring test). -/
def strIn (needle hay : String) : Bool := charsWithin needle.toList hay.toList

/-- Python `for x in v`: lists iterate over elements, strings over their
one-character substrings, dicts over their keys; other values raise
`TypeError`. -/
def pyIter : JValue → Except PyErr (List JValue)
  | .arr xs => .ok xs
  | .str s => .ok (s.toList.map (fun ch => .str (String.mk [ch])))
  | .obj kvs => .ok (kvs.map (fun kv => .str kv.1))
  | _ => .error .typeError

/-- Python `k in v`: key membership for dicts, element equality for lists,
substring for strings; `TypeError` otherwise. -/
def pyContains (v : JValue) (k : String) : Except PyErr Bool :=
  match v with
  | .obj kvs => .ok (kvs.any (fun kv => kv.1 == k))
  | .arr xs => .ok (xs.any (fun x => match x with | .str s => s == k | _ => false))
  | .str s => .ok (strIn k s)
  | _ => .error .typeError

/-- Python `v[k]` for a string key: dict lookup (`KeyError` when absent);
lists and strings reject string subscripts; other values raise `TypeError`. -/
def pySubscript (v : JValue) (k : String) : Except PyErr JValue :=
  match v with
  | .obj kvs =>
      match dlookup kvs k with
      | some x => .ok x
      | none => .error .keyError
  | _ => .error .typeError

/-- Python `v.get(k, default)`: only dicts have a `.get` method; other
values raise `AttributeError`. -/
def pyGet (v : JValue) (k : String) (d : JValue) : Except PyErr JValue :=
  match v with
  | .obj kvs => .ok (dgetD kvs k d)
  | _ => .error .attributeError

/-- `copy.deepcopy`: produces a structurally equal value.  In a pure value
embedding a copy is indistinguishable from the original; the point of the
copy in the source is that subsequent operations cannot reach the caller's
object, which the state-passing embedding records explicitly. -/
def deepcopy {α : Type} (x : α) : α := x

/-! ## Field schemas and record projection (`dict_to_model`) -/

/-- A schematics field declaration: an internal field name and an optional
`serialized_name` (the external JSON key, when it differs). -/
structure Field where
  name : String
  serialized_name : Option String
  deriving DecidableEq, Repr

/-- `model_class.fields`, a static per-resource schema. -/
abbrev Schema := List Field

/-- `fields[field_name].serialized_name or field_name`: the serialized name
when it is declared and truthy (non-empty), else the internal field name. -/
def serializedOr (f : Field) : String :=
  match f.serialized_name with
  | some s => if s = "" then f.name else s
  | none => f.name

/-- The `model_keys` set of `dict_to_model`: one key per field. -/
def knownKeys (model_class : Schema) : List String :=
  model_class.map serializedOr

/-- A constructed schematics model instance; it holds the raw data the
constructor was given (`model_class(raw_data=safe_data)`). -/
structure Record where
  raw_data : List (String × JValue)

/-- `dict_to_model(data, model_class)` with explicit state passing: the
second component is the caller's `data` argument after the call.  The
source rebinds the local name to `deepcopy(data)` before reading, and
never writes through the original reference, so the caller's document is
returned unchanged.  A `None` input short-circuits to `None`; a non-dict
input fails at `data.keys()` with `AttributeError`. -/
def dict_to_model_st (data : JValue) (model_class : Schema) :
    Except PyErr (Option Record) × JValue :=
  match data with
  | .null => (.ok none, .null)
  | .obj kvs =>
      let ckvs := deepcopy kvs
      let model_keys := knownKeys model_class
      let safe_keys := (ckvs.map Prod.fst).dedup.filter (fun k => model_keys.contains k)
      let safe_data := safe_keys.map (fun k => (k, (dlookup ckvs k).getD .null))
      (.ok (some ⟨safe_data⟩), .obj kvs)
  | v => (.error .attributeError, v)

/-- `dict_to_model`, result component only. -/
def dict_to_model (data : JValue) (model_class : Schema) :
    Except PyErr (Option Record) :=
  (dict_to_model_st data model_class).1

/-- Modelled from the claim's words (C1): the known-key set as "the union of
each field's internal field name and its declared serialized name" — both
names per field.  For comparison with `knownKeys`, which is what the source
computes. -/
def knownKeysClaim (model_class : Schema) : List String :=
  model_class.flatMap (fun f => f.name :: f.serialized_name.toList)

/-! ## `CollectionResponse` -/

/-- `[dict_to_model(item, model_class) for item in items]`: any exception
raised by a projection aborts the comprehension. -/
def mapModels (model_class : Schema) : List JValue → Except PyErr (List (Option Record))
  | [] => .ok []
  | x :: xs =>
      match dict_to_model x model_class with
      | .error e => .error e
      | .ok r =>
          match mapModels model_class xs with
          | .error e => .error e
          | .ok rs => .ok (r :: rs)

/-- A constructed `CollectionResponse`.  `success` holds whatever value
`response.get('success', False)` produced; the four pagination cursor
fields are `none` ("unset") unless the constructor assigned them. -/
structure CollectionResponse where
  items : List (Option Record)
  success : JValue
  start : Option JValue
  limit : Option JValue
  next_start : Option JValue
  more_items_in_collection : Option JValue

/-- `response.get('data', []) or []`: the `data` value when present and
truthy, else an empty list. -/
def extractData (response : List (String × JValue)) : JValue :=
  let v := dgetD response "data" (.arr [])
  if truthy v then v else .arr []

/-- `self.items = [dict_to_model(item, model_class) for item in items]`,
where `items = response.get('data', []) or []`. -/
def buildItems (response : List (String × JValue)) (model_class : Schema) :
    Except PyErr (List (Option Record)) :=
  match pyIter (extractData response) with
  | .error e => .error e
  | .ok rawItems => mapModels model_class rawItems

/-- Lines 135–142 of the constructor: when
`'additional_data' in response and 'pagination' in response['additional_data']`
holds, read the four cursor values off the pagination dict with their
defaults (`some` quadruple); otherwise leave the cursor fields unset
(`none`).  Exceptions raised by `in` or `.get` on ill-typed values
propagate. -/
def extractPagination (response : List (String × JValue)) :
    Except PyErr (Option (JValue × JValue × JValue × JValue)) :=
  match dlookup response "additional_data" with
  | none => .ok none
  | some ad =>
    match pyContains ad "pagination" with
    | .error e => .error e
    | .ok false => .ok none
    | .ok true =>
      match pySubscript ad "pagination" with
      | .error e => .error e
      | .ok pagination =>
        match pagination with
        | .obj pg =>
            .ok (some (dgetD pg "start" (.int 0),
                       dgetD pg "limit" (.int 100),
                       dgetD pg "next_start" (.int 0),
                       dgetD pg "more_items_in_collection" (.bool false)))
        | _ => .error .attributeError

/-- `CollectionResponse.__init__` on an already-decoded document (the
transport-response branch only normalizes a live response to its decoded
document via `.json()` first).  Exceptions escaping the constructor are
modelled as `Except.error`; in that case no collection object exists. -/
def collectionInit (response : List (String × JValue)) (model_class : Schema) :
    Except PyErr CollectionResponse :=
  match buildItems response model_class with
  | .error e => .error e
  | .ok items =>
    let success := dgetD response "success" (.bool false)
    match extractPagination response with
    | .error e => .error e
    | .ok none => .ok ⟨items, success, none, none, none, none⟩
    | .ok (some (s, l, ns, mo)) =>
        .ok ⟨items, success, some s, some l, some ns, some mo⟩

/-- `CollectionResponse.__len__`. -/
def CollectionResponse.len (c : CollectionResponse) : Nat :=
  c.items.length

/-- `CollectionResponse.__iter__` (the list the iterator traverses). -/
def CollectionResponse.iter (c : CollectionResponse) : List (Option Record) :=
  c.items

/-- `CollectionResponse.__getitem__` with Python list-index semantics:
negative indices count from the end, out-of-range indices raise
`IndexError`. -/
def CollectionResponse.getitem (c : CollectionResponse) (key : Int) :
    Except PyErr (Option Record) :=
  let i : Int := if key < 0 then key + Int.ofNat c.items.length else key
  match c.items.get? i.toNat with
  | some v => if 0 ≤ i then .ok v else .error .indexError
  | none => .error .indexError

/-- `CollectionResponse.exists` (`exists` is a Lean keyword). -/
def CollectionResponse.existsb (c : CollectionResponse) : Bool :=
  c.len > 0

/-! ## `PipedriveAPI.send_request` and `BaseResource._find` -/

/-- Query parameters / form data: a Python dict of JSON-able values. -/
abbrev Params := List (String × JValue)

def BASE_URL : String := "https://api.pipedrive.com/v1"

/-- The single HTTP call delegated to the transport
(`requests.request(method, url, params=params, data=data)`). -/
structure HttpRequest where
  method : String
  url : String
  params : Params
  data : Option JValue

/-- Outcome of `send_request`: either no network call was made and a
`MockResponse` whose `json()` is the given document is returned, or one
transport call with the given request was issued. -/
inductive SendOutcome where
  | noCall (jsonBody : List (String × JValue))
  | call (req : HttpRequest)

/-- `params or {}`: the caller's dict when it is truthy (non-empty),
otherwise a fresh empty dict. -/
def paramsOrEmpty (p : Option Params) : Params :=
  match p with
  | some kvs => if kvs.isEmpty then [] else kvs
  | none => []

/-- Is the caller's `params` argument truthy (so that the local rebinding
`params = params or {}` aliases the caller's object)? -/
def paramsTruthy (p : Option Params) : Bool :=
  match p with
  | some kvs => !kvs.isEmpty
  | none => false

/-- `PipedriveAPI.send_request(method, path, params, data)` with explicit
state passing: the second component is the caller's `params` argument after
the call.  With no configured token (None or empty string) a
`MockResponse` with `json() == {}` is returned and nothing is touched.
Otherwise `params['api_token'] = token` mutates the dict the local name
refers to — the caller's own dict exactly when the caller passed a truthy
(non-empty) mapping — and one transport call is made to
`BASE_URL + path`. -/
def send_request_st (api_token : Option String) (method path : String)
    (params0 : Option Params) (data : Option JValue) :
    SendOutcome × Option Params :=
  match api_token with
  | none => (.noCall [], params0)
  | some tok =>
    if tok = "" then (.noCall [], params0)
    else
      let params := dictSet (paramsOrEmpty params0) "api_token" (.str tok)
      let url := BASE_URL ++ path
      (.call ⟨method, url, params, data⟩,
       if paramsTruthy params0 then some params else params0)

/-- `BaseResource._find(term, params, data)` with explicit state passing:
`params['term'] = term` on the local dict (the caller's when truthy), then
`send_request('GET', FIND_REQ_PATH, params, data)` through the gateway
(the resource-level success/error hooks are no-ops).  The second component
is the caller's `params` argument after the call. -/
def find_st (api_token : Option String) (find_path term : String)
    (params0 : Option Params) (data : Option JValue) :
    SendOutcome × Option Params :=
  let params1 := dictSet (paramsOrEmpty params0) "term" (.str term)
  let res := send_request_st api_token "GET" find_path (some params1) data
  let paramsFinal := (res.2).getD params1
  (res.1, if paramsTruthy params0 then some paramsFinal else params0)

/-! ## Resource registry and `PipedriveAPI.__getattr__` -/

/-- A registered resource type: all the claims need of it is its
`API_ACESSOR_NAME`. -/
structure ResourceClass where
  accessor_name : String
  deriving DecidableEq, Repr

/-- A constructed resource instance (`BaseResource.__init__`); the back
reference `self.api` is represented by the gateway state returned
alongside it. -/
structure Resource where
  cls : ResourceClass
  deriving DecidableEq, Repr

/-- A `PipedriveAPI` instance: the token and the dynamically `setattr`-ed
resource instances. -/
structure PipedriveAPI where
  api_token : Option String
  attrs : List (String × Resource)
  deriving DecidableEq, Repr

/-- `PipedriveAPI.register_resource`: stores the class in the process-wide
registry under its accessor name. -/
def register_resource (registry : List (String × ResourceClass))
    (rc : ResourceClass) : List (String × ResourceClass) :=
  dictSet registry rc.accessor_name rc

/-- `PipedriveAPI.__getattr__(item)` (invoked when `item` is not already
set on the instance), with `BaseResource.__init__` inlined: a registry hit
constructs a new instance, which `setattr`s itself onto the gateway under
its `API_ACESSOR_NAME`; a miss (`KeyError`) is turned into
`AttributeError`. -/
def getattrAPI (registry : List (String × ResourceClass))
    (api : PipedriveAPI) (item : String) :
    Except PyErr (Resource × PipedriveAPI) :=
  match dlookup registry item with
  | some rc =>
      let res : Resource := ⟨rc⟩
      .ok (res, { api with attrs := dictSet api.attrs rc.accessor_name res })
  | none => .error .attributeError

/-! ## Helper lemmas -/

theorem dlookup_dictSet_self {α : Type} (l : List (String × α)) (k : String) (v : α) :
    dlookup (dictSet l k v) k = some v := by
  induction l with
  | nil => simp [dictSet, dlookup]
  | cons kv rest ih =>
      obtain ⟨k0, v0⟩ := kv
      by_cases hk : k0 = k
      · simp [dictSet, dlookup, hk]
      · simp only [dictSet, hk, if_false, dlookup]
        exact ih

theorem dlookup_dictSet_ne {α : Type} (l : List (String × α)) (k k' : String) (v : α)
    (hne : k' ≠ k) : dlookup (dictSet l k v) k' = dlookup l k' := by
  induction l with
  | nil => simp [dictSet, dlookup, Ne.symm hne]
  | cons kv rest ih =>
      obtain ⟨k0, v0⟩ := kv
      by_cases hk : k0 = k
      · subst hk
        simp only [dictSet, if_pos rfl, dlookup]
        rw [if_neg (fun hh => hne (Eq.symm hh)), if_neg (fun hh => hne (Eq.symm hh))]
      · simp only [dictSet, hk, if_false, dlookup]
        by_cases hk' : k0 = k'
        · simp [hk']
        · simp only [hk', if_false]
          exact ih

theorem dlookup_any {α : Type} (k : String) :
    ∀ (l : List (String × α)) (v : α), dlookup l k = some v →
      l.any (fun kv => kv.1 == k) = true := by
  intro l
  induction l with
  | nil => intro v h; simp [dlookup] at h
  | cons kv rest ih =>
      obtain ⟨k0, v0⟩ := kv
      intro v h
      simp only [dlookup] at h
      by_cases hk : k0 = k
      · subst hk; simp
      · rw [if_neg hk] at h
        simp only [List.any_cons, Bool.or_eq_true, beq_iff_eq]
        exact Or.inr (ih v h)

theorem dictSet_isEmpty {α : Type} (l : List (String × α)) (k : String) (v : α) :
    (dictSet l k v).isEmpty = false := by
  cases l with
  | nil => simp [dictSet]
  | cons kv rest =>
      obtain ⟨k0, v0⟩ := kv
      by_cases hk : k0 = k
      · simp [dictSet, hk]
      · simp [dictSet, hk]

theorem dictSet_ne_nil {α : Type} (l : List (String × α)) (k : String) (v : α) :
    dictSet l k v ≠ [] := by
  cases l with
  | nil => simp [dictSet]
  | cons kv rest =>
      obtain ⟨k0, v0⟩ := kv
      by_cases hk : k0 = k
      · simp [dictSet, hk]
      · simp [dictSet, hk]

theorem mapModels_ok_length (mc : Schema) :
    ∀ (xs : List JValue) (ys : List (Option Record)),
      mapModels mc xs = .ok ys → ys.length = xs.length := by
  intro xs
  induction xs with
  | nil =>
      intro ys h
      simp only [mapModels] at h
      cases h
      rfl
  | cons x xt ih =>
      intro ys h
      simp only [mapModels] at h
      cases hx : dict_to_model x mc with
      | error e => rw [hx] at h; cases h
      | ok r =>
          rw [hx] at h
          cases ht : mapModels mc xt with
          | error e => rw [ht] at h; cases h
          | ok rs =>
              rw [ht] at h
              cases h
              simp [ih rs ht]

theorem mapModels_ok_get (mc : Schema) :
    ∀ (xs : List JValue) (ys : List (Option Record)), mapModels mc xs = .ok ys →
      ∀ (i : Nat) (h1 : i < xs.length) (h2 : i < ys.length),
        dict_to_model (xs.get ⟨i, h1⟩) mc = .ok (ys.get ⟨i, h2⟩) := by
  intro xs
  induction xs with
  | nil => intro ys h i h1 h2; exact absurd h1 (by simp)
  | cons x xt ih =>
      intro ys h i h1 h2
      simp only [mapModels] at h
      cases hx : dict_to_model x mc with
      | error e => rw [hx] at h; cases h
      | ok r =>
          rw [hx] at h
          cases ht : mapModels mc xt with
          | error e => rw [ht] at h; cases h
          | ok rs =>
              rw [ht] at h
              cases h
              cases i with
              | zero => simpa using hx
              | succ j =>
                  exact ih rs ht j (Nat.lt_of_succ_lt_succ h1)
                    (Nat.lt_of_succ_lt_succ h2)

theorem collInit_ok_inv (resp : List (String × JValue)) (mc : Schema)
    (c : CollectionResponse) (h : collectionInit resp mc = .ok c) :
    buildItems resp mc = .ok c.items ∧
    c.success = dgetD resp "success" (.bool false) ∧
    ((extractPagination resp = .ok none ∧ c.start = none ∧ c.limit = none ∧
        c.next_start = none ∧ c.more_items_in_collection = none) ∨
     (∃ s l ns mo, extractPagination resp = .ok (some (s, l, ns, mo)) ∧
        c.start = some s ∧ c.limit = some l ∧ c.next_start = some ns ∧
        c.more_items_in_collection = some mo)) := by
  unfold collectionInit at h
  cases hb : buildItems resp mc with
  | error e => rw [hb] at h; cases h
  | ok items =>
      rw [hb] at h
      cases hp : extractPagination resp with
      | error e => rw [hp] at h; cases h
      | ok p =>
          rw [hp] at h
          cases p with
          | none =>
              cases h
              exact ⟨rfl, rfl, Or.inl ⟨rfl, rfl, rfl, rfl, rfl⟩⟩
          | some q =>
              obtain ⟨s, l, ns, mo⟩ := q
              cases h
              exact ⟨rfl, rfl, Or.inr ⟨s, l, ns, mo, rfl, rfl, rfl, rfl, rfl⟩⟩

theorem extractPagination_block (resp adl pg : List (String × JValue))
    (h1 : dlookup resp "additional_data" = some (.obj adl))
    (h2 : dlookup adl "pagination" = some (.obj pg)) :
    extractPagination resp =
      .ok (some (dgetD pg "start" (.int 0), dgetD pg "limit" (.int 100),
                 dgetD pg "next_start" (.int 0),
                 dgetD pg "more_items_in_collection" (.bool false))) := by
  unfold extractPagination
  rw [h1]
  simp only [pyContains, dlookup_any "pagination" adl (.obj pg) h2]
  simp only [pySubscript, h2]

theorem extractPagination_some_block (resp : List (String × JValue))
    (q : JValue × JValue × JValue × JValue)
    (h : extractPagination resp = .ok (some q)) :
    ∃ adl pg, dlookup resp "additional_data" = some (.obj adl) ∧
              dlookup adl "pagination" = some (.obj pg) := by
  unfold extractPagination at h
  cases had : dlookup resp "additional_data" with
  | none => rw [had] at h; cases h
  | some ad =>
      rw [had] at h
      cases ad with
      | obj kvs =>
          simp only [pyContains] at h
          cases hany : kvs.any (fun kv => kv.1 == "pagination") with
          | false => rw [hany] at h; cases h
          | true =>
              rw [hany] at h
              simp only [pySubscript] at h
              cases hv : dlookup kvs "pagination" with
              | none => rw [hv] at h; cases h
              | some v =>
                  rw [hv] at h
                  cases v with
                  | obj pg => exact ⟨kvs, pg, rfl, hv⟩
                  | null => cases h
                  | bool b => cases h
                  | int n => cases h
                  | str s => cases h
                  | arr xs => cases h
      | arr xs =>
          simp only [pyContains] at h
          cases hany : xs.any (fun x => match x with | .str s => s == "pagination" | _ => false) with
          | false => rw [hany] at h; cases h
          | true => rw [hany] at h; simp only [pySubscript] at h; cases h
      | str s =>
          simp only [pyContains] at h
          cases hin : strIn "pagination" s with
          | false => rw [hin] at h; cases h
          | true => rw [hin] at h; simp only [pySubscript] at h; cases h
      | null => simp only [pyContains] at h; cases h
      | bool b => simp only [pyContains] at h; cases h
      | int n => simp only [pyContains] at h; cases h

theorem extractData_default (resp : List (String × JValue))
    (h : dlookup resp "data" = none ∨ dlookup resp "data" = some .null) :
    extractData resp = .arr [] := by
  unfold extractData dgetD
  rcases h with h | h <;> rw [h] <;> rfl

theorem extractData_arr_nonempty (resp : List (String × JValue)) (x : JValue)
    (xt : List JValue) (h : extractData resp = .arr (x :: xt)) :
    dlookup resp "data" = some (.arr (x :: xt)) := by
  unfold extractData dgetD at h
  cases hd : dlookup resp "data" with
  | none => rw [hd] at h; cases h
  | some v =>
      rw [hd] at h
      simp only [Option.getD_some] at h
      cases htr : truthy v with
      | false => rw [htr] at h; simp at h
      | true => rw [htr] at h; simp at h; rw [h]

theorem extractData_of_lookup_arr (resp : List (String × JValue)) (x : JValue)
    (xt : List JValue) (h : dlookup resp "data" = some (.arr (x :: xt))) :
    extractData resp = .arr (x :: xt) := by
  unfold extractData dgetD
  rw [h]
  rfl

theorem buildItems_ok_inv (resp : List (String × JValue)) (mc : Schema)
    (items : List (Option Record)) (h : buildItems resp mc = .ok items) :
    ∃ rawItems, pyIter (extractData resp) = .ok rawItems ∧
      mapModels mc rawItems = .ok items := by
  unfold buildItems at h
  cases hi : pyIter (extractData resp) with
  | error e => rw [hi] at h; cases h
  | ok rawItems => rw [hi] at h; exact ⟨rawItems, rfl, h⟩

theorem dict_to_model_str (s : String) (mc : Schema) :
    dict_to_model (.str s) mc = .error .attributeError := rfl

theorem dict_to_model_obj (kvs : List (String × JValue)) (S : Schema) :
    dict_to_model (.obj kvs) S =
      .ok (some ⟨((kvs.map Prod.fst).dedup.filter
        (fun k => (knownKeys S).contains k)).map
          (fun k => (k, (dlookup kvs k).getD .null))⟩) := rfl

/-! ## Claims -/

/-- Claim C1, counterexample.  The claim's known-key set — "the union of
each field's internal field name and its declared serialized name" — is
not what projection uses: for a field with internal name `n` and declared
serialized name `s`, the document `{"n": 1}` projects to a record with no
keys at all, although `keys(D) ∩ (names ∪ serialized names) = {"n"}`. -/
theorem C1_counterexample :
    ¬ (∀ (kvs : List (String × JValue)) (S : Schema) (r : Record),
        dict_to_model (.obj kvs) S = .ok (some r) →
        ∀ k, k ∈ r.raw_data.map Prod.fst ↔
          (k ∈ kvs.map Prod.fst ∧ k ∈ knownKeysClaim S)) := by
  intro hall
  have h := hall [("n", .int 1)] [⟨"n", some "s"⟩] ⟨[]⟩ rfl "n"
  simp [knownKeysClaim] at h

/-- Claim C1, amended.  For every raw document `D` (a mapping) and schema
`S`, the projected record contains exactly the keys of `D` that are in the
schema's known-key set, where the known-key set has, for each field, its
declared serialized name when that is declared and non-empty, and its
internal field name otherwise (`serialized_name or field_name`) — not the
union of both names. -/
theorem C1_projection_key_set (kvs : List (String × JValue)) (S : Schema)
    (r : Record) (h : dict_to_model (.obj kvs) S = .ok (some r)) :
    ∀ k, k ∈ r.raw_data.map Prod.fst ↔
      (k ∈ kvs.map Prod.fst ∧ k ∈ knownKeys S) := by
  rw [dict_to_model_obj] at h
  have hr := Option.some.inj (Except.ok.inj h)
  subst hr
  intro k
  simp [List.map_map, List.mem_filter, List.mem_dedup, List.elem_iff,
    Function.comp]

/-- Claim C1 witness: a concrete projection, with the schema knowing only
`id`, keeps `id` and drops `secret`. -/
theorem C1_witness :
    "id" ∈ (Record.mk [("id", JValue.int 1)]).raw_data.map Prod.fst ↔
      ("id" ∈ [("id", JValue.int 1), ("secret", JValue.str "x")].map Prod.fst ∧
       "id" ∈ knownKeys [⟨"id", none⟩]) :=
  C1_projection_key_set [("id", .int 1), ("secret", .str "x")] [⟨"id", none⟩]
    ⟨[("id", .int 1)]⟩ rfl "id"

/-- Claim C2, counterexample.  Projection of the empty (but non-null)
document does NOT return null: it returns a record with no keys. -/
theorem C2_counterexample :
    ¬ (dict_to_model (JValue.obj []) ([] : Schema) = .ok none) := by
  intro h
  exact Option.noConfusion (Except.ok.inj h)

/-- Claim C2, amended.  For every schema, projection of a null raw document
returns null ("no record"); projection of an empty raw document returns an
empty record (a record with no keys), not null. -/
theorem C2_null_and_empty (S : Schema) :
    dict_to_model .null S = .ok none ∧
    dict_to_model (.obj []) S = .ok (some ⟨[]⟩) :=
  ⟨rfl, rfl⟩

/-- Claim C3.  Projection never mutates the input document: in the
state-passing embedding, the caller's document after `dict_to_model` is
exactly the document passed in (the source rebinds its local name to
`deepcopy(data)` and only reads). -/
theorem C3_no_mutation (kvs : List (String × JValue)) (S : Schema) :
    (dict_to_model_st (.obj kvs) S).2 = .obj kvs := rfl

/-- Concrete pagination block used by witnesses (spec §8, property 10). -/
def pgEx : List (String × JValue) :=
  [("start", .int 0), ("limit", .int 100), ("next_start", .int 100),
   ("more_items_in_collection", .bool true)]

/-- Concrete `additional_data` object used by witnesses. -/
def adlEx : List (String × JValue) := [("pagination", .obj pgEx)]

/-- Concrete schema (fields `id`, `name`) used by witnesses. -/
def mcEx : Schema := [⟨"id", none⟩, ⟨"name", none⟩]

/-- Concrete response document used by witnesses (spec §8, property 10). -/
def respEx : List (String × JValue) :=
  [("data", .arr [.obj [("id", .int 1), ("name", .str "Ann"),
                        ("secret", .str "x")]]),
   ("success", .bool true),
   ("additional_data", .obj adlEx)]

/-- The collection the constructor builds from `respEx` and `mcEx`. -/
def collEx : CollectionResponse :=
  ⟨[some ⟨[("id", .int 1), ("name", .str "Ann")]⟩], .bool true,
   some (.int 0), some (.int 100), some (.int 100), some (.bool true)⟩

/-- Claim C4.  For every source document from which the constructor
returns normally: if the document has an `additional_data` object holding
a `pagination` object, the four cursor fields are set from that object
with defaults `start=0`, `limit=100`, `next_start=0`,
`more_items_in_collection=false` for missing subkeys; if no such
pagination block exists, all four cursor fields remain unset. -/
theorem C4_pagination (resp : List (String × JValue)) (mc : Schema)
    (c : CollectionResponse) (h : collectionInit resp mc = .ok c) :
    (∀ adl pg, dlookup resp "additional_data" = some (.obj adl) →
       dlookup adl "pagination" = some (.obj pg) →
       c.start = some (dgetD pg "start" (.int 0)) ∧
       c.limit = some (dgetD pg "limit" (.int 100)) ∧
       c.next_start = some (dgetD pg "next_start" (.int 0)) ∧
       c.more_items_in_collection =
         some (dgetD pg "more_items_in_collection" (.bool false))) ∧
    ((¬ ∃ adl pg, dlookup resp "additional_data" = some (.obj adl) ∧
         dlookup adl "pagination" = some (.obj pg)) →
       c.start = none ∧ c.limit = none ∧ c.next_start = none ∧
       c.more_items_in_collection = none) := by
  obtain ⟨-, -, hpag⟩ := collInit_ok_inv resp mc c h
  constructor
  · intro adl pg h1 h2
    have hep := extractPagination_block resp adl pg h1 h2
    rcases hpag with ⟨hp, -, -, -, -⟩ | ⟨s, l, ns, mo, hp, hs, hl, hns, hmo⟩
    · rw [hp] at hep; cases hep
    · rw [hp] at hep
      simp only [Except.ok.injEq, Option.some.injEq, Prod.mk.injEq] at hep
      obtain ⟨e1, e2, e3, e4⟩ := hep
      exact ⟨by rw [hs, e1], by rw [hl, e2], by rw [hns, e3], by rw [hmo, e4]⟩
  · intro hno
    rcases hpag with ⟨-, hs, hl, hns, hmo⟩ | ⟨s, l, ns, mo, hp, -, -, -, -⟩
    · exact ⟨hs, hl, hns, hmo⟩
    · obtain ⟨adl, pg, h1, h2⟩ := extractPagination_some_block resp _ hp
      exact absurd ⟨adl, pg, h1, h2⟩ hno

/-- Claim C4 witness: the pagination block of `respEx` populates all four
cursor fields. -/
theorem C4_witness :
    collEx.start = some (JValue.int 0) ∧
    collEx.limit = some (JValue.int 100) ∧
    collEx.next_start = some (JValue.int 100) ∧
    collEx.more_items_in_collection = some (JValue.bool true) :=
  (C4_pagination respEx mcEx collEx rfl).1 adlEx pgEx rfl rfl

/-- Claim C5.  For every constructed collection: its length equals the
length of the list iteration yields; iteration yields exactly the
projections of the source `data` entries in order (`mapModels` of the
extracted list); and positional indexing returns the item at that
position. -/
theorem C5_sequence (resp : List (String × JValue)) (mc : Schema)
    (c : CollectionResponse) (h : collectionInit resp mc = .ok c) :
    c.len = c.iter.length ∧
    (∃ xs, pyIter (extractData resp) = .ok xs ∧ mapModels mc xs = .ok c.iter) ∧
    (∀ (i : Nat) (hi : i < c.len),
       c.getitem (i : Int) = .ok (c.iter.get ⟨i, hi⟩)) := by
  obtain ⟨hb, -, -⟩ := collInit_ok_inv resp mc c h
  obtain ⟨xs, hiter, hmap⟩ := buildItems_ok_inv resp mc c.items hb
  refine ⟨rfl, ⟨xs, hiter, hmap⟩, ?_⟩
  intro i hi
  simp only [CollectionResponse.getitem, CollectionResponse.iter]
  rw [if_neg (by omega : ¬((i : Int) < 0))]
  rw [Int.toNat_natCast]
  rw [List.get?_eq_get hi]
  simp

/-- Claim C5 witness at the concrete collection `collEx`. -/
theorem C5_witness :
    collEx.len = collEx.iter.length ∧
    (∃ xs, pyIter (extractData respEx) = .ok xs ∧
       mapModels mcEx xs = .ok collEx.iter) ∧
    collEx.getitem ((0 : Nat) : Int) = .ok (collEx.iter.get ⟨0, by decide⟩) :=
  ⟨(C5_sequence respEx mcEx collEx rfl).1,
   (C5_sequence respEx mcEx collEx rfl).2.1,
   (C5_sequence respEx mcEx collEx rfl).2.2 0 (by decide)⟩

/-- Claim C6.  For every source document from which the constructor
returns normally: if the `data` key is absent or null the items are the
empty list, and `exists()` is true iff `data` in the source is a
non-empty list. -/
theorem C6_data_default_and_exists (resp : List (String × JValue)) (mc : Schema)
    (c : CollectionResponse) (h : collectionInit resp mc = .ok c) :
    ((dlookup resp "data" = none ∨ dlookup resp "data" = some .null) →
       c.items = []) ∧
    (c.existsb = true ↔ ∃ x xs, dlookup resp "data" = some (.arr (x :: xs))) := by
  obtain ⟨hb, -, -⟩ := collInit_ok_inv resp mc c h
  obtain ⟨raw, hiter, hmap⟩ := buildItems_ok_inv resp mc c.items hb
  have hlen : c.items.length = raw.length := mapModels_ok_length mc raw c.items hmap
  constructor
  · intro hd
    rw [extractData_default resp hd] at hiter
    simp only [pyIter] at hiter
    injection hiter with hiter
    subst hiter
    simp only [mapModels] at hmap
    injection hmap with hmap
    exact hmap.symm
  · constructor
    · intro hex
      have hpos : 0 < c.items.length := by
        simpa [CollectionResponse.existsb, CollectionResponse.len] using hex
      have hrawpos : 0 < raw.length := by omega
      cases hv : extractData resp with
      | null => rw [hv] at hiter; cases hiter
      | bool b => rw [hv] at hiter; cases hiter
      | int n => rw [hv] at hiter; cases hiter
      | arr xs =>
          rw [hv] at hiter
          simp only [pyIter] at hiter
          injection hiter with hiter
          subst hiter
          cases xs with
          | nil => simp at hrawpos
          | cons x xt =>
              exact ⟨x, xt, extractData_arr_nonempty resp x xt hv⟩
      | str s =>
          rw [hv] at hiter
          simp only [pyIter] at hiter
          injection hiter with hiter
          subst hiter
          cases hsl : s.toList with
          | nil => rw [hsl] at hrawpos; simp at hrawpos
          | cons ch rest =>
              rw [hsl] at hmap hrawpos
              have h0 := mapModels_ok_get mc _ _ hmap 0 (by simp) (by omega)
              rw [show ((List.map (fun ch => JValue.str (String.mk [ch]))
                (ch :: rest)).get ⟨0, by simp⟩) = .str (String.mk [ch]) from rfl] at h0
              rw [dict_to_model_str] at h0
              cases h0
      | obj kvs =>
          rw [hv] at hiter
          simp only [pyIter] at hiter
          injection hiter with hiter
          subst hiter
          cases kvs with
          | nil => simp at hrawpos
          | cons kv rest =>
              have h0 := mapModels_ok_get mc _ _ hmap 0 (by simp) (by omega)
              rw [show ((List.map (fun kv => JValue.str kv.1)
                (kv :: rest)).get ⟨0, by simp⟩) = .str kv.1 from rfl] at h0
              rw [dict_to_model_str] at h0
              cases h0
    · rintro ⟨x, xt, hd⟩
      rw [extractData_of_lookup_arr resp x xt hd] at hiter
      simp only [pyIter] at hiter
      injection hiter with hiter
      subst hiter
      simp [CollectionResponse.existsb, CollectionResponse.len, hlen]

/-- Claim C6 witness: `exists()` on the concrete collection reflects the
non-empty `data` list of `respEx`. -/
theorem C6_witness :
    collEx.existsb = true ↔
      ∃ x xs, dlookup respEx "data" = some (.arr (x :: xs)) :=
  (C6_data_default_and_exists respEx mcEx collEx rfl).2

/-- Claim C7.  With a null or empty token, `send_request` makes no network
call and returns a `MockResponse` whose `json()` is the empty document
`{}` (the `noCall` outcome with empty object body). -/
theorem C7_no_token_mock (method path : String) (params0 : Option Params)
    (data : Option JValue) (tok : Option String)
    (h : tok = none ∨ tok = some "") :
    (send_request_st tok method path params0 data).1 = .noCall [] := by
  rcases h with h | h <;> subst h <;> rfl

/-- Claim C7 witness at a concrete call with no token. -/
theorem C7_witness :
    (send_request_st none "GET" "/deals" none none).1 = SendOutcome.noCall [] :=
  C7_no_token_mock "GET" "/deals" none none none (Or.inl rfl)

/-- Claim C8.  With a non-empty token, `send_request` issues exactly one
transport call whose query parameters bind `api_token` to the token and
whose URL is `BASE_URL + path`. -/
theorem C8_token_call (t method path : String) (params0 : Option Params)
    (data : Option JValue) (h : t ≠ "") :
    ∃ req, (send_request_st (some t) method path params0 data).1 = .call req ∧
      req.url = BASE_URL ++ path ∧
      dlookup req.params "api_token" = some (.str t) := by
  refine ⟨⟨method, BASE_URL ++ path,
           dictSet (paramsOrEmpty params0) "api_token" (.str t), data⟩,
         ?_, rfl, ?_⟩
  · simp [send_request_st, h]
  · exact dlookup_dictSet_self _ _ _

/-- Claim C8 witness at a concrete call with token `"tkn"`. -/
theorem C8_witness :
    ∃ req, (send_request_st (some "tkn") "GET" "/deals" none none).1 =
        SendOutcome.call req ∧
      req.url = BASE_URL ++ "/deals" ∧
      dlookup req.params "api_token" = some (.str "tkn") :=
  C8_token_call "tkn" "GET" "/deals" none none (by decide)

/-- Claim C9.  Resolving an attribute not already set on a gateway: an
unregistered name fails with `AttributeError`; a registered name returns a
fresh instance of the registered class, and that same instance is now
stored on the gateway under the class's accessor name. -/
theorem C9_resource_dispatch (registry : List (String × ResourceClass))
    (api : PipedriveAPI) (item : String) :
    (dlookup registry item = none →
       getattrAPI registry api item = .error .attributeError) ∧
    (∀ rc, dlookup registry item = some rc →
       ∃ res api2, getattrAPI registry api item = .ok (res, api2) ∧
         res = ⟨rc⟩ ∧
         dlookup api2.attrs rc.accessor_name = some res) := by
  constructor
  · intro h
    simp [getattrAPI, h]
  · intro rc h
    exact ⟨⟨rc⟩, { api with attrs := dictSet api.attrs rc.accessor_name ⟨rc⟩ },
           by simp [getattrAPI, h], rfl, dlookup_dictSet_self _ _ _⟩

/-- Claim C9 witness: with a registry holding only `deals`, an unknown
name errors and `deals` resolves to an instance stored on the gateway. -/
theorem C9_witness :
    (getattrAPI [("deals", ⟨"deals"⟩)] ⟨none, []⟩ "persons" =
       .error .attributeError) ∧
    (∃ res api2,
       getattrAPI [("deals", ⟨"deals"⟩)] ⟨none, []⟩ "deals" = .ok (res, api2) ∧
       res = ⟨⟨"deals"⟩⟩ ∧
       dlookup api2.attrs (ResourceClass.mk "deals").accessor_name = some res) :=
  ⟨(C9_resource_dispatch [("deals", ⟨"deals"⟩)] ⟨none, []⟩ "persons").1 rfl,
   (C9_resource_dispatch [("deals", ⟨"deals"⟩)] ⟨none, []⟩ "deals").2 ⟨"deals"⟩ rfl⟩

/-- Claim C10, counterexample.  The claim fails for the empty (non-null)
mapping: `params = params or {}` rebinds the local name to a fresh dict
because an empty dict is falsy, so the caller's empty mapping is NOT
mutated and never receives `api_token`. -/
theorem C10_counterexample :
    (send_request_st (some "tkn") "GET" "/deals" (some ([] : Params)) none).2 =
      some ([] : Params) ∧
    dlookup ([] : Params) "api_token" = none :=
  ⟨rfl, rfl⟩

/-- Claim C10, amended.  The request-sending operations mutate the
caller-supplied params mapping in place only when it is non-empty (a
truthy dict): then, after `send_request` with a configured token the
caller's mapping binds `api_token` to the token, and after `_find` the
caller's mapping binds `term` to the search term. -/
theorem C10_params_mutation (t term fpath method path : String) (kvs : Params)
    (data : Option JValue) (ht : t ≠ "") (hne : kvs ≠ []) :
    (∃ m, (send_request_st (some t) method path (some kvs) data).2 = some m ∧
       dlookup m "api_token" = some (.str t)) ∧
    (∀ tok : Option String,
       ∃ m, (find_st tok fpath term (some kvs) data).2 = some m ∧
         dlookup m "term" = some (.str term)) := by
  have hkvs : paramsOrEmpty (some kvs) = kvs := by
    simp [paramsOrEmpty, hne]
  have htr : paramsTruthy (some kvs) = true := by
    simp [paramsTruthy, hne]
  constructor
  · refine ⟨dictSet kvs "api_token" (.str t), ?_, ?_⟩
    · simp [send_request_st, ht, htr, hkvs]
    · exact dlookup_dictSet_self _ _ _
  · intro tok
    have htr1 : paramsTruthy (some (dictSet kvs "term" (.str term))) = true := by
      simp [paramsTruthy, dictSet_ne_nil]
    cases tok with
    | none =>
        refine ⟨dictSet kvs "term" (.str term), ?_, dlookup_dictSet_self _ _ _⟩
        simp [find_st, send_request_st, htr, hkvs]
    | some tk =>
        by_cases htk : tk = ""
        · subst htk
          refine ⟨dictSet kvs "term" (.str term), ?_, dlookup_dictSet_self _ _ _⟩
          simp [find_st, send_request_st, htr, hkvs]
        · refine ⟨dictSet (dictSet kvs "term" (.str term)) "api_token" (.str tk),
                 ?_, ?_⟩
          · have hie : kvs.isEmpty = false := by
              cases kvs with
              | nil => exact absurd rfl hne
              | cons a l => rfl
            simp [find_st, send_request_st, htr, htr1, htk, hkvs, paramsTruthy,
              paramsOrEmpty, dictSet_isEmpty, hie]
          · rw [dlookup_dictSet_ne _ _ _ _ (by decide)]
            exact dlookup_dictSet_self _ _ _

/-- Claim C10 witness: with a one-entry caller mapping, `send_request`
leaves `api_token` in the caller's mapping and `_find` leaves `term`. -/
theorem C10_witness :
    (∃ m, (send_request_st (some "tkn") "GET" "/deals"
        (some [("a", JValue.null)]) none).2 = some m ∧
       dlookup m "api_token" = some (.str "tkn")) ∧
    (∃ m, (find_st none "/searchResults" "coffee"
        (some [("a", JValue.null)]) none).2 = some m ∧
       dlookup m "term" = some (.str "coffee")) :=
  ⟨(C10_params_mutation "tkn" "coffee" "/searchResults" "GET" "/deals"
      [("a", JValue.null)] none (by decide) (List.cons_ne_nil _ _)).1,
   (C10_params_mutation "tkn" "coffee" "/searchResults" "GET" "/deals"
      [("a", JValue.null)] none (by decide) (List.cons_ne_nil _ _)).2 none⟩

end Pipedrive
